import Mathlib

/-!
Shallow embedding of the mcp-cross stdio-to-HTTP JSON-RPC proxy core:
`src/lib/jsonrpc-error.js`, `src/lib/http-proxy.js` and the header parser
module (`parseHeader`/`parseHeaders`/`expandEnvVars`/`maskSensitiveValue`).

JavaScript values flowing through the proxy are parsed JSON documents, so
they are modelled by the inductive `Json` below; `undefined` (an absent
object property) is modelled by `Option Json` being `none`.  JS `typeof`
and truthiness are embedded explicitly (`jsTypeof`, `jsTruthy`) because the
source code branches on them.
-/

/-- A parsed JSON document (the values `JSON.parse` can produce). -/
inductive Json where
  | null : Json
  | bool : Bool → Json
  | num : Int → Json
  | str : String → Json
  | arr : List Json → Json
  | obj : List (String × Json) → Json

/-- JS `typeof` on a parsed JSON value: `null`, arrays and objects are all
`"object"`. -/
def jsTypeof : Json → String
  | .null => "object"
  | .bool _ => "boolean"
  | .num _ => "number"
  | .str _ => "string"
  | .arr _ => "object"
  | .obj _ => "object"

/-- Is this value the JS `null`? -/
def isJsNull : Json → Bool
  | .null => true
  | _ => false

/-- JS property access `v[k]`: `none` models `undefined` (absent property,
or any access on a non-object value). -/
def getField : Json → String → Option Json
  | .obj kvs, k => kvs.lookup k
  | _, _ => none

/-- JS truthiness of a parsed JSON value (`null`, `false`, `0`, `""` are
falsy; arrays and objects are always truthy). -/
def jsTruthy : Json → Bool
  | .null => false
  | .bool b => b
  | .num n => n != 0
  | .str s => s ≠ ""
  | .arr _ => true
  | .obj _ => true

/-- `leadsWith a b`: `a` is a leading segment of `b` (character lists). -/
def leadsWith : List Char → List Char → Bool
  | [], _ => true
  | _ :: _, [] => false
  | x :: xs, y :: ys => x = y && leadsWith xs ys

/-- `hasSeg a b`: `a` occurs as a contiguous segment of `b`.  Embeds JS
`String.prototype.includes` on character lists. -/
def hasSeg (a : List Char) : List Char → Bool
  | [] => leadsWith a []
  | y :: ys => leadsWith a (y :: ys) || hasSeg a ys

/-- JS `s.includes(pat)`. -/
def strContains (s pat : String) : Bool := hasSeg pat.data s.data

/-! ## `src/lib/jsonrpc-error.js` -/

/-- `ErrorMessages[code]` with the `|| 'Unknown error'` fallback folded in
(`createError` uses exactly this lookup). -/
def errorMessageFor (code : Int) : String :=
  if code = -32700 then "Parse error"
  else if code = -32600 then "Invalid Request"
  else if code = -32601 then "Method not found"
  else if code = -32602 then "Invalid params"
  else if code = -32603 then "Internal error"
  else if code = -32000 then "Transport error"
  else if code = -32001 then "HTTP error"
  else if code = -32002 then "Configuration error"
  else if code = -32003 then "Session error"
  else "Unknown error"

/-- `createError(code, message, data)`: the JSON-RPC `error` member.  A
`none` or empty `message` (falsy in JS) falls back to the standard message
for the code; `data` is attached only when defined. -/
def createError (code : Int) (message : Option String) (data : Option Json) : Json :=
  let msg := match message with
    | some m => if m ≠ "" then m else errorMessageFor code
    | none => errorMessageFor code
  Json.obj ([("code", Json.num code), ("message", Json.str msg)] ++
    (match data with | some d => [("data", d)] | none => []))

/-- `createErrorResponse(code, message, id, data)`.  `id = none` models the
JS `undefined` (property dropped by `JSON.stringify`). -/
def createErrorResponse (code : Int) (message : Option String) (id : Option Json)
    (data : Option Json) : Json :=
  Json.obj ([("jsonrpc", Json.str "2.0"), ("error", createError code message data)] ++
    (match id with | some i => [("id", i)] | none => []))

/-- `parseError(details)`: code -32700, id always `null`; `data.details`
only when `details` is truthy. -/
def parseError (details : Option String) : Json :=
  createErrorResponse (-32700) (some "Parse error: Invalid JSON") (some Json.null)
    (match details with
     | some d => if d ≠ "" then some (Json.obj [("details", Json.str d)]) else none
     | none => none)

/-- `invalidRequest(id, details)`: code -32600. -/
def invalidRequest (id : Json) (details : Option String) : Json :=
  createErrorResponse (-32600) (some "Invalid Request") (some id)
    (match details with
     | some d => if d ≠ "" then some (Json.obj [("details", Json.str d)]) else none
     | none => none)

/-- `internalError(id, message, data)`: code -32603 (the explicit
`message || 'Internal error'` fallback coincides with `createError`'s own
default for -32603). -/
def internalError (id : Option Json) (message : Option String) (data : Option Json) : Json :=
  createErrorResponse (-32603) message id data

/-- `fromHttpError(statusCode, statusText, id, body)`: code -32001 with the
status information as `data`. -/
def fromHttpError (statusCode : Int) (statusText : String) (id : Option Json)
    (body : Option Json) : Json :=
  createErrorResponse (-32001) (some s!"HTTP {statusCode}: {statusText}") id
    (some (Json.obj ([("statusCode", Json.num statusCode), ("statusText", Json.str statusText)] ++
      (match body with | some b => [("body", b)] | none => []))))

/-- The shape of a JS `Error` as far as `fromNetworkError` inspects it:
`name`, `message`, `code` and `cause.code`. -/
structure JSError where
  name : Option String
  message : String
  code : Option String
  causeCode : Option String
deriving DecidableEq

/-- `fromNetworkError(error, id)`: code -32000; the if-chain classifying
DNS / refused / timeout / reset / certificate failures, attaching
`data.errorCode` for a recognized sub-cause and always
`data.originalError`. -/
def fromNetworkError (e : JSError) (id : Option Json) : Json :=
  let base := [("originalError", Json.str e.message)]
  let md : String × List (String × Json) :=
    if e.code = some "ENOTFOUND" ∨ e.causeCode = some "ENOTFOUND" then
      ("DNS resolution failed", base ++ [("errorCode", Json.str "ENOTFOUND")])
    else if e.code = some "ECONNREFUSED" ∨ e.causeCode = some "ECONNREFUSED" then
      ("Connection refused", base ++ [("errorCode", Json.str "ECONNREFUSED")])
    else if e.code = some "ETIMEDOUT" ∨ e.causeCode = some "ETIMEDOUT" ∨
        e.name = some "TimeoutError" then
      ("Request timeout", base ++ [("errorCode", Json.str "ETIMEDOUT")])
    else if e.code = some "ECONNRESET" ∨ e.causeCode = some "ECONNRESET" then
      ("Connection reset", base ++ [("errorCode", Json.str "ECONNRESET")])
    else if e.code = some "CERT_HAS_EXPIRED" ∨ strContains e.message "certificate" then
      ("SSL/TLS certificate error", base ++ [("errorCode", Json.str "CERT_ERROR")])
    else
      ("Network error", base)
  createErrorResponse (-32000) (some md.1) id (some (Json.obj md.2))

/-- The `{ valid, error? }` result of `isValidRequest`. -/
structure ValidationResult where
  valid : Bool
  error : Option String
deriving DecidableEq

/-- `isValidRequest(obj)`: request-shape validation, branch for branch
(including `typeof null === 'object'`, so `params: null` passes the
`params` check exactly as in the source). -/
def isValidRequest (j : Json) : ValidationResult :=
  if !(jsTypeof j == "object") || isJsNull j then
    ⟨false, some "Request must be an object"⟩
  else if !(match getField j "jsonrpc" with | some (.str s) => s == "2.0" | _ => false) then
    ⟨false, some "Invalid or missing jsonrpc version (must be \"2.0\")"⟩
  else if !(match getField j "method" with | some (.str _) => true | _ => false) then
    ⟨false, some "Invalid or missing method (must be a string)"⟩
  else if (match getField j "params" with
           | some p => !(jsTypeof p == "object")
           | none => false) then
    ⟨false, some "params must be an object or array if present"⟩
  else if (match getField j "id" with
           | some i => !(isJsNull i) && !(jsTypeof i == "string") && !(jsTypeof i == "number")
           | none => false) then
    ⟨false, some "id must be a string, number, or null"⟩
  else
    ⟨true, none⟩

/-- `isBatchRequest(obj)`: `Array.isArray`. -/
def isBatchRequest : Json → Bool
  | .arr _ => true
  | _ => false

/-! ## Envelope accessors (for stating properties) -/

/-- `env.error.code` of a response envelope. -/
def envelopeCode (env : Json) : Option Json :=
  (getField env "error").bind (fun e => getField e "code")

/-- `env.error.message` of a response envelope. -/
def envelopeMessage (env : Json) : Option Json :=
  (getField env "error").bind (fun e => getField e "message")

/-- `env.id` of a response envelope. -/
def envelopeId (env : Json) : Option Json := getField env "id"

/-- `env.error.data.errorCode` of a response envelope. -/
def dataErrorCode (env : Json) : Option Json :=
  ((getField env "error").bind (fun e => getField e "data")).bind
    (fun d => getField d "errorCode")

/-- `env.error.data.originalError` of a response envelope. -/
def dataOriginalError (env : Json) : Option Json :=
  ((getField env "error").bind (fun e => getField e "data")).bind
    (fun d => getField d "originalError")

/-! ## `src/lib/http-proxy.js` — `HTTPProxySession` -/

/-- The configuration fields the session logic reads: the expanded header
map (insertion-ordered) and the request timeout in milliseconds. -/
structure Config where
  headers : List (String × String)
  timeout : Nat
deriving DecidableEq

/-- The mutable session fields touched by `sendRequest`. -/
structure Session where
  sessionId : Option String
  requestCount : Nat
deriving DecidableEq

/-- JS object property assignment `o[k] = v` on an insertion-ordered
object (keys are unique): replace in place when the key exists, append
otherwise. -/
def objSet : List (String × String) → String → String → List (String × String)
  | [], k, v => [(k, v)]
  | p :: t, k, v => if p.1 = k then (k, v) :: t else p :: objSet t k v

/-- `buildRequestHeaders()`: fixed `Content-Type`/`Accept`, spread of the
configured headers, then `Mcp-Session-Id` when `this.sessionId` is truthy
(a non-empty string). -/
def buildRequestHeaders (cfg : Config) (s : Session) : List (String × String) :=
  let base := [("Content-Type", "application/json"), ("Accept", "application/json")]
  let withCfg := cfg.headers.foldl (fun acc p => objSet acc p.1 p.2) base
  match s.sessionId with
  | some sid => if sid ≠ "" then objSet withCfg "Mcp-Session-Id" sid else withCfg
  | none => withCfg

/-- The session-id capture in `sendRequest`: adopt the response's
`Mcp-Session-Id` header when it is truthy and different from the stored
value. -/
def updateSession (s : Session) (responseSessionId : Option String) : Session :=
  match responseSessionId with
  | some v => if v ≠ "" ∧ s.sessionId ≠ some v then { s with sessionId := some v } else s
  | none => s

/-- `response.ok`: HTTP status in the 200–299 range. -/
def httpOk (status : Int) : Bool := 200 ≤ status && status < 300

/-- The body of an HTTP response as the proxy consumes it: either text that
parses as JSON, or text that does not (with the `JSON.parse` failure
message the runtime would raise). -/
inductive BodyResult where
  | jsonOf (j : Json)
  | textOf (raw : String) (parseErrMsg : String)

/-- One outcome of the `fetch` call made by `sendRequest`: either the
promise rejects with a JS error (a timeout abort arrives here with
`name = "AbortError"`), or a response with a status, status text,
`Mcp-Session-Id` and `Content-Type` headers, and a body. -/
inductive FetchOutcome where
  | reject (e : JSError)
  | response (status : Int) (statusText : String) (sessionHeader : Option String)
      (contentType : Option String) (body : BodyResult)

/-- The `Mcp-Session-Id` response header of an outcome, if any. -/
def responseSessionHeader : FetchOutcome → Option String
  | .reject _ => none
  | .response _ _ sh _ _ => sh

/-- `requestId` as computed at the top of `sendRequest`: `null` for a
batch, else the message's `id` (`none` models `undefined`). -/
def requestIdOf (message : Json) : Option Json :=
  if isBatchRequest message then some Json.null else getField message "id"

/-- `sendRequest(message)` as a state transformer over the one abstracted
effect (the `fetch` call, whose outcome is an explicit argument): returns
the new session state and the JSON value the function resolves with.  The
branch structure mirrors the source: rejection → `fromNetworkError`
(abort mapped to a synthetic `TimeoutError`); non-ok status →
`fromHttpError`; event-stream content type → `internalError`; body that is
not JSON → the thrown `SyntaxError` caught and mapped by
`fromNetworkError`; otherwise the parsed body verbatim. -/
def sendRequest (cfg : Config) (s : Session) (message : Json) (outcome : FetchOutcome) :
    Session × Json :=
  let requestId := requestIdOf message
  match outcome with
  | .reject e =>
    (s,
      if e.name = some "AbortError" then
        fromNetworkError
          ⟨some "TimeoutError", s!"Request timeout after {cfg.timeout}ms", none, none⟩ requestId
      else
        fromNetworkError e requestId)
  | .response status statusText sessionHeader contentType body =>
    let s1 := updateSession { s with requestCount := s.requestCount + 1 } sessionHeader
    (s1,
      if !httpOk status then
        fromHttpError status (if statusText ≠ "" then statusText else "Unknown Error") requestId
          (match body with
           | .jsonOf j => some j
           | .textOf raw _ => some (Json.str raw))
      else if strContains (contentType.getD "") "text/event-stream" then
        internalError requestId
          (some "SSE responses not supported in this version. Please use a server that returns JSON.")
          (some (Json.obj [("contentType", Json.str (contentType.getD ""))]))
      else
        match body with
        | .jsonOf data => data
        | .textOf _ perr => fromNetworkError ⟨some "SyntaxError", perr, none, none⟩ requestId)

/-- A session dispatching a sequence of messages, each with its fetch
outcome, threading the state through `sendRequest`. -/
def runSession (cfg : Config) (s : Session) (steps : List (Json × FetchOutcome)) : Session :=
  steps.foldl (fun st p => (sendRequest cfg st p.1 p.2).1) s

/-- The headers of the cleanup DELETE issued by `stop()`: sent only when
`this.sessionId` is truthy, carrying exactly that value. -/
def stopCleanupHeaders (s : Session) : Option (List (String × String)) :=
  match s.sessionId with
  | some sid => if sid ≠ "" then some [("Mcp-Session-Id", sid)] else none
  | none => none

/-- How `processLine` sees one input line after the two steps that involve
the JS runtime (trimming and `JSON.parse`): blank, unparseable (with the
parser's error message), or a parsed JSON document. -/
inductive LineParse where
  | empty
  | parseFail (errMsg : String)
  | parsed (j : Json)

/-- What `processLine` did with a line: the output message (the value that
would be `JSON.stringify`-ed onto stdout), and whether the message was
dispatched to the remote endpoint. -/
structure ProcessResult where
  output : Option Json
  dispatched : Bool

/-- `message.id || null` as used for the -32600 envelope's id: the id when
truthy, `null` otherwise (also when absent). -/
def idOrNull (message : Json) : Json :=
  match getField message "id" with
  | some v => if jsTruthy v then v else Json.null
  | none => Json.null

/-- `processLine(line)` over the abstracted parse outcome, with the remote
dispatch abstracted as `send` (the JSON value `sendRequest` resolves
with).  Mirrors the source: blank → nothing; parse failure → -32700; empty
batch → -32600; non-empty batch → dispatched, response always emitted
(invalid items are only logged); invalid single request → -32600 keyed by
`message.id || null`; valid single request → dispatched, with the response
discarded when the message has no `id`. -/
def processLine (lp : LineParse) (send : Json → Json) : ProcessResult :=
  match lp with
  | .empty => ⟨none, false⟩
  | .parseFail errMsg => ⟨some (parseError (some errMsg)), false⟩
  | .parsed message =>
    match message with
    | .arr items =>
      if items.length = 0 then
        ⟨some (invalidRequest Json.null (some "Empty batch")), false⟩
      else
        ⟨some (send (Json.arr items)), true⟩
    | _ =>
      let validation := isValidRequest message
      if !validation.valid then
        ⟨some (invalidRequest (idOrNull message) validation.error), false⟩
      else
        let response := send message
        if (getField message "id").isNone then
          ⟨none, true⟩
        else
          ⟨some response, true⟩

/-! ## Header parser module (`parseHeader`, `parseHeaders`, `expandEnvVars`,
`maskSensitiveValue`) -/

/-- First character class of an environment-variable name: `[A-Za-z_]`. -/
def isVarStart (c : Char) : Bool := c.isAlpha || c = '_'

/-- Subsequent character class of a variable name: `[A-Za-z0-9_]`. -/
def isVarChar (c : Char) : Bool := c.isAlpha || c.isDigit || c = '_'

/-- The global replace of `ENV_VAR_PATTERN` (`\$\{?([A-Za-z_][A-Za-z0-9_]*)\}?`)
in `expandEnvVars`: scan left to right; at a `$`, optionally over a `{`, a
variable name starts with `[A-Za-z_]` and extends greedily over
`[A-Za-z0-9_]*`, and a `}` directly after the name is consumed by the
optional `\}?`; the whole match is replaced by the environment's value for
the name (empty when the variable is undefined) and scanning resumes after
the match without re-scanning the replacement.  A `$` that starts no match
is kept and scanning resumes at the next character. -/
def expandChars (env : List (String × String)) : List Char → List Char
  | [] => []
  | '$' :: rest =>
    match rest with
    | '{' :: c :: rest2 =>
      if isVarStart c then
        let varName := String.mk (c :: rest2.takeWhile isVarChar)
        let r := rest2.dropWhile isVarChar
        let r2 := r.drop (if r.head? == some '}' then 1 else 0)
        ((env.lookup varName).getD "").data ++ expandChars env r2
      else
        '$' :: expandChars env ('{' :: c :: rest2)
    | c :: rest2 =>
      if isVarStart c then
        let varName := String.mk (c :: rest2.takeWhile isVarChar)
        let r := rest2.dropWhile isVarChar
        let r2 := r.drop (if r.head? == some '}' then 1 else 0)
        ((env.lookup varName).getD "").data ++ expandChars env r2
      else
        '$' :: expandChars env (c :: rest2)
    | [] => ['$']
  | c :: rest => c :: expandChars env rest
termination_by l => l.length
decreasing_by
  all_goals simp only [List.length_cons, List.length_drop]
  all_goals
    first
      | omega
      | (have h1 : (List.dropWhile isVarChar rest2).length ≤ rest2.length :=
           (List.dropWhile_sublist _).length_le
         omega)

/-- `expandEnvVars(value, env)`. -/
def expandEnvVars (value : String) (env : List (String × String)) : String :=
  String.mk (expandChars env value.data)

/-- The test of `ENV_VAR_PATTERN` without the global flag (as used for the
empty-value warning of `parseHeaders`): does the string contain a variable
reference (`$`, optionally `{`, then `[A-Za-z_]`)? -/
def hasEnvRef : List Char → Bool
  | [] => false
  | '$' :: rest =>
    (match rest with
     | '{' :: c :: _ => isVarStart c
     | c :: _ => isVarStart c
     | [] => false) || hasEnvRef rest
  | _ :: rest => hasEnvRef rest

/-- A character of the RFC 7230 token grammar
(`HEADER_NAME_PATTERN = /^[A-Za-z0-9!#$%&'*+.^_`|~-]+$/`); the apostrophe
and backtick members are written by code point. -/
def isTokenChar (c : Char) : Bool :=
  c.isAlphanum || c = '!' || c = '#' || c = '$' || c = '%' || c = '&' ||
  c = Char.ofNat 39 || c = '*' || c = '+' || c = '.' || c = '^' || c = '_' ||
  c = Char.ofNat 96 || c = '|' || c = '~' || c = '-'

/-- `isValidHeaderName(name)`: non-empty and all token characters. -/
def isValidHeaderName (name : String) : Bool :=
  name ≠ "" && name.data.all isTokenChar

/-- `isValidHeaderValue(value)`: rejects CR and LF (header injection). -/
def isValidHeaderValue (value : String) : Bool :=
  !(value.data.contains '\r') && !(value.data.contains '\n')

/-- JS `String.prototype.trim` on a character list. -/
def trimChars (l : List Char) : List Char :=
  ((l.dropWhile Char.isWhitespace).reverse.dropWhile Char.isWhitespace).reverse

/-- Split a character list at the first occurrence of `ch`
(JS `indexOf` + the two `substring` calls around the colon). -/
def splitAtChar (ch : Char) : List Char → Option (List Char × List Char)
  | [] => none
  | x :: xs =>
    if x = ch then some ([], xs)
    else (splitAtChar ch xs).map (fun p => (x :: p.1, p.2))

/-- The `{name, value, originalValue}` triple of a parsed header. -/
structure ParsedHeader where
  name : String
  value : String
  originalValue : String
deriving DecidableEq

/-- The `{success, header?, error?}` result of `parseHeader`. -/
inductive ParseResult where
  | ok (header : ParsedHeader)
  | err (error : String)
deriving DecidableEq

/-- `parseHeader(headerString, env)`: trim; when no colon is present expand
the whole string first and retry the colon search; split at the first
colon; trim and validate the name; expand the value portion; validate the
expanded value against CRLF. -/
def parseHeader (headerString : String) (env : List (String × String)) : ParseResult :=
  if headerString = "" then .err "Header string must be a non-empty string"
  else
    let trimmedInput := String.mk (trimChars headerString.data)
    if trimmedInput.data.length = 0 then .err "Header string must be a non-empty string"
    else
      let wk : List Char × Bool :=
        match splitAtChar ':' trimmedInput.data with
        | none => (trimChars (expandChars env trimmedInput.data), true)
        | some _ => (trimmedInput.data, false)
      match splitAtChar ':' wk.1 with
      | none => .err s!"Invalid header format: missing colon separator in \"{headerString}\""
      | some p =>
        let name := String.mk (trimChars p.1)
        let rawValuePortion := String.mk (trimChars p.2)
        if !isValidHeaderName name then
          .err s!"Invalid header name: \"{name}\""
        else
          let originalValue := if wk.2 then trimmedInput else rawValuePortion
          let value := String.mk (expandChars env rawValuePortion.data)
          if !isValidHeaderValue value then
            .err "Invalid header value: contains forbidden characters (CRLF)"
          else
            .ok ⟨name, value, originalValue⟩

/-- The `{headers, errors, warnings}` result of `parseHeaders`. -/
structure HeadersResult where
  headers : List (String × String)
  errors : List String
  warnings : List String
deriving DecidableEq

/-- `parseHeaders(headerStrings, env)`: parse each string, collect errors
and continue; warn when a header's expanded value is empty while the
original text contained a variable reference; later headers with the same
name override earlier ones (`Map.set`). -/
def parseHeaders (headerStrings : List String) (env : List (String × String)) : HeadersResult :=
  headerStrings.foldl
    (fun acc hs =>
      match parseHeader hs env with
      | .err e => ⟨acc.headers, acc.errors ++ [e], acc.warnings⟩
      | .ok h =>
        let warnings :=
          if h.value = "" ∧ h.originalValue ≠ "" ∧ hasEnvRef h.originalValue.data then
            acc.warnings ++
              [s!"Header \"{h.name}\" has empty value after environment variable expansion (original: \"{h.originalValue}\")"]
          else acc.warnings
        ⟨objSet acc.headers h.name h.value, acc.errors, warnings⟩)
    ⟨[], [], []⟩

/-- The closed set of sensitive header names (compared lowercased). -/
def sensitiveHeaders : List String :=
  ["authorization", "x-api-key", "api-key", "x-auth-token", "cookie", "set-cookie"]

/-- The masking arithmetic of `maskSensitiveValue`: `'***'` for values of
length at most 12, else the first 4 and last 4 characters around `'***'`. -/
def maskChars (l : List Char) : List Char :=
  if l.length ≤ 12 then ['*', '*', '*']
  else l.take 4 ++ ['*', '*', '*'] ++ l.drop (l.length - 4)

/-- JS `name.toLowerCase()` as it acts on the ASCII header names compared
against `sensitiveHeaders`. -/
def lowerAscii (s : String) : String := String.mk (s.data.map Char.toLower)

/-- `maskSensitiveValue(name, value)`: mask only for sensitive names
(case-insensitively). -/
def maskSensitiveValue (name value : String) : String :=
  if sensitiveHeaders.contains (lowerAscii name) then String.mk (maskChars value.data)
  else value

/-! ## Shared lemmas about envelope construction -/

theorem envelopeCode_cer (code : Int) (msg : Option String) (id : Option Json)
    (data : Option Json) :
    envelopeCode (createErrorResponse code msg id data) = some (Json.num code) := by
  cases id <;> cases data <;>
    simp [envelopeCode, createErrorResponse, createError, getField, List.lookup]

theorem envelopeId_cer (code : Int) (msg : Option String) (id : Option Json)
    (data : Option Json) :
    envelopeId (createErrorResponse code msg id data) = id := by
  cases id <;> cases data <;>
    simp [envelopeId, createErrorResponse, createError, getField, List.lookup]

theorem envelopeData_cer (code : Int) (msg : Option String) (id : Option Json)
    (data : Option Json) :
    (getField (createErrorResponse code msg id data) "error").bind (fun e => getField e "data") =
      data := by
  cases id <;> cases data <;>
    simp [createErrorResponse, createError, getField, List.lookup]

theorem dataErrorCode_cer (code : Int) (msg : Option String) (id : Option Json)
    (kvs : List (String × Json)) :
    dataErrorCode (createErrorResponse code msg id (some (Json.obj kvs))) =
      kvs.lookup "errorCode" := by
  simp only [dataErrorCode]
  rw [envelopeData_cer]
  simp [getField]

theorem dataOriginalError_cer (code : Int) (msg : Option String) (id : Option Json)
    (kvs : List (String × Json)) :
    dataOriginalError (createErrorResponse code msg id (some (Json.obj kvs))) =
      kvs.lookup "originalError" := by
  simp only [dataOriginalError]
  rw [envelopeData_cer]
  simp [getField]

theorem envelopeMessage_cer (code : Int) (m : String) (id : Option Json)
    (data : Option Json) (hm : m ≠ "") :
    envelopeMessage (createErrorResponse code (some m) id data) = some (Json.str m) := by
  cases data <;>
    simp [envelopeMessage, createErrorResponse, createError, getField, List.lookup, hm]

/-! ## Claims about request-shape validation and `processLine` -/

/-- C4: the claim says the request-shape validator rejects a candidate whose
`params` is `null` ("neither an object nor an array").  The code's check is
`typeof obj.params !== 'object'`, and in JS `typeof null === 'object'`, so
a candidate with `params: null` is in fact ACCEPTED by `isValidRequest`,
contradicting the validator's own error message ("params must be an object
or array if present"): the claim is right and the code has a slip.  This
theorem evaluates the embedded validator at the failing input. -/
theorem C4_params_null_accepted :
    (isValidRequest (Json.obj
      [("jsonrpc", Json.str "2.0"), ("method", Json.str "m"), ("params", Json.null)])).valid
        = true ∧
    jsTypeof Json.null = "object" :=
  ⟨rfl, rfl⟩

/-- C6: for every non-empty input line that fails JSON parsing,
`processLine` emits a JSON-RPC envelope with `error.code = -32700` and
`id = null`, and dispatches nothing to the remote endpoint. -/
theorem C6_parse_error_envelope (errMsg : String) (send : Json → Json) :
    (processLine (LineParse.parseFail errMsg) send).dispatched = false ∧
    (processLine (LineParse.parseFail errMsg) send).output = some (parseError (some errMsg)) ∧
    envelopeCode (parseError (some errMsg)) = some (Json.num (-32700)) ∧
    envelopeId (parseError (some errMsg)) = some Json.null := by
  refine ⟨rfl, rfl, ?_, ?_⟩
  · simp only [parseError]
    exact envelopeCode_cer _ _ _ _
  · simp only [parseError]
    exact envelopeId_cer _ _ _ _

/-- C1 counterexample: the claim says a message with no `id` field NEVER
produces an output line, "regardless of whether the message passes shape
validation".  But a parsed single message without `id` that fails shape
validation (here: `{"jsonrpc":"2.0"}`, which has no `method`) makes
`processLine` return a -32600 envelope, i.e. an output line. -/
theorem C1_invalid_no_id_produces_output :
    getField (Json.obj [("jsonrpc", Json.str "2.0")]) "id" = none ∧
    (isValidRequest (Json.obj [("jsonrpc", Json.str "2.0")])).valid = false ∧
    ((processLine (LineParse.parsed (Json.obj [("jsonrpc", Json.str "2.0")]))
      (fun m => m)).output).isSome = true :=
  ⟨rfl, rfl, rfl⟩

/-- C1 (amended): a non-batch message with no `id` field that PASSES shape
validation is dispatched and produces no output line; one that fails shape
validation produces a -32600 output line without being dispatched. -/
theorem C1_no_id_no_output_amended (j : Json) (send : Json → Json)
    (hb : isBatchRequest j = false) (hid : getField j "id" = none) :
    ((isValidRequest j).valid = true →
      processLine (LineParse.parsed j) send = ⟨none, true⟩) ∧
    ((isValidRequest j).valid = false →
      (processLine (LineParse.parsed j) send).output =
        some (invalidRequest (idOrNull j) (isValidRequest j).error) ∧
      (processLine (LineParse.parsed j) send).dispatched = false) := by
  constructor
  · intro hv
    cases j with
    | arr items => simp [isBatchRequest] at hb
    | null => exact absurd hv (by decide)
    | bool b =>
      have : isValidRequest (Json.bool b) = ⟨false, some "Request must be an object"⟩ := rfl
      rw [this] at hv; exact absurd hv (by decide)
    | num n =>
      have : isValidRequest (Json.num n) = ⟨false, some "Request must be an object"⟩ := rfl
      rw [this] at hv; exact absurd hv (by decide)
    | str s =>
      have : isValidRequest (Json.str s) = ⟨false, some "Request must be an object"⟩ := rfl
      rw [this] at hv; exact absurd hv (by decide)
    | obj kvs => simp [processLine, hv, hid]
  · intro hv
    cases j with
    | arr items => simp [isBatchRequest] at hb
    | null => simp [processLine, hv]
    | bool b => simp [processLine, hv]
    | num n => simp [processLine, hv]
    | str s => simp [processLine, hv]
    | obj kvs => simp [processLine, hv]

/-- C1 witness: the amended theorem applied to the concrete valid
notification `{"jsonrpc":"2.0","method":"ping"}`. -/
theorem C1_no_id_no_output_amended_witness :
    ((isValidRequest (Json.obj [("jsonrpc", Json.str "2.0"), ("method", Json.str "ping")])).valid
        = true →
      processLine (LineParse.parsed
        (Json.obj [("jsonrpc", Json.str "2.0"), ("method", Json.str "ping")])) (fun m => m) =
        ⟨none, true⟩) ∧
    ((isValidRequest (Json.obj [("jsonrpc", Json.str "2.0"), ("method", Json.str "ping")])).valid
        = false →
      (processLine (LineParse.parsed
        (Json.obj [("jsonrpc", Json.str "2.0"), ("method", Json.str "ping")]))
          (fun m => m)).output =
        some (invalidRequest
          (idOrNull (Json.obj [("jsonrpc", Json.str "2.0"), ("method", Json.str "ping")]))
          (isValidRequest
            (Json.obj [("jsonrpc", Json.str "2.0"), ("method", Json.str "ping")])).error) ∧
      (processLine (LineParse.parsed
        (Json.obj [("jsonrpc", Json.str "2.0"), ("method", Json.str "ping")]))
          (fun m => m)).dispatched = false) :=
  C1_no_id_no_output_amended _ _ rfl rfl

/-- C3 counterexample: the claim says the -32600 envelope's `id` equals the
offending message's `id` "including when the present `id` is the number 0
or the empty string".  The code computes the envelope id as
`message.id || null`, and `0` is falsy in JS, so for the invalid message
`{"jsonrpc":"2.0","id":0}` (no `method`) the envelope carries `id: null`,
not `id: 0`. -/
theorem C3_zero_id_mapped_to_null :
    getField (Json.obj [("jsonrpc", Json.str "2.0"), ("id", Json.num 0)]) "id" =
      some (Json.num 0) ∧
    (isValidRequest (Json.obj [("jsonrpc", Json.str "2.0"), ("id", Json.num 0)])).valid = false ∧
    envelopeId ((processLine (LineParse.parsed
      (Json.obj [("jsonrpc", Json.str "2.0"), ("id", Json.num 0)])) (fun m => m)).output.getD
        Json.null) = some Json.null :=
  ⟨rfl, rfl, rfl⟩

/-- C3 (amended): a non-batch message failing shape validation yields a
-32600 envelope whose `id` is `message.id || null`: the message's `id` when
that id is truthy, and `null` otherwise — in particular `null` when the id
is absent, and also `null` (not the original id) when the id is the number
0 or the empty string. -/
theorem C3_invalid_request_id_amended (j : Json) (send : Json → Json)
    (hb : isBatchRequest j = false) (hv : (isValidRequest j).valid = false) :
    (processLine (LineParse.parsed j) send).output =
      some (invalidRequest (idOrNull j) (isValidRequest j).error) ∧
    envelopeCode (invalidRequest (idOrNull j) (isValidRequest j).error) =
      some (Json.num (-32600)) ∧
    envelopeId (invalidRequest (idOrNull j) (isValidRequest j).error) = some (idOrNull j) ∧
    (∀ v, getField j "id" = some v → jsTruthy v = true → idOrNull j = v) ∧
    (getField j "id" = none → idOrNull j = Json.null) ∧
    (getField j "id" = some (Json.num 0) → idOrNull j = Json.null) ∧
    (getField j "id" = some (Json.str "") → idOrNull j = Json.null) := by
  refine ⟨?_, ?_, ?_, ?_, ?_, ?_, ?_⟩
  · cases j with
    | arr items => simp [isBatchRequest] at hb
    | null => simp [processLine, hv]
    | bool b => simp [processLine, hv]
    | num n => simp [processLine, hv]
    | str s => simp [processLine, hv]
    | obj kvs => simp [processLine, hv]
  · simp only [invalidRequest]
    exact envelopeCode_cer _ _ _ _
  · simp only [invalidRequest]
    exact envelopeId_cer _ _ _ _
  · intro v hfield htruthy
    simp [idOrNull, hfield, htruthy]
  · intro hfield
    simp [idOrNull, hfield]
  · intro hfield
    simp [idOrNull, hfield, jsTruthy]
  · intro hfield
    simp [idOrNull, hfield, jsTruthy]

/-- C3 witness: the amended theorem applied to the invalid message
`{"jsonrpc":"2.0","id":0}`. -/
theorem C3_invalid_request_id_amended_witness :
    (processLine (LineParse.parsed (Json.obj [("jsonrpc", Json.str "2.0"), ("id", Json.num 0)]))
        (fun m => m)).output =
      some (invalidRequest (idOrNull (Json.obj [("jsonrpc", Json.str "2.0"), ("id", Json.num 0)]))
        (isValidRequest (Json.obj [("jsonrpc", Json.str "2.0"), ("id", Json.num 0)])).error) ∧
    envelopeCode (invalidRequest
        (idOrNull (Json.obj [("jsonrpc", Json.str "2.0"), ("id", Json.num 0)]))
        (isValidRequest (Json.obj [("jsonrpc", Json.str "2.0"), ("id", Json.num 0)])).error) =
      some (Json.num (-32600)) ∧
    envelopeId (invalidRequest
        (idOrNull (Json.obj [("jsonrpc", Json.str "2.0"), ("id", Json.num 0)]))
        (isValidRequest (Json.obj [("jsonrpc", Json.str "2.0"), ("id", Json.num 0)])).error) =
      some (idOrNull (Json.obj [("jsonrpc", Json.str "2.0"), ("id", Json.num 0)])) ∧
    (∀ v, getField (Json.obj [("jsonrpc", Json.str "2.0"), ("id", Json.num 0)]) "id" = some v →
      jsTruthy v = true →
      idOrNull (Json.obj [("jsonrpc", Json.str "2.0"), ("id", Json.num 0)]) = v) ∧
    (getField (Json.obj [("jsonrpc", Json.str "2.0"), ("id", Json.num 0)]) "id" = none →
      idOrNull (Json.obj [("jsonrpc", Json.str "2.0"), ("id", Json.num 0)]) = Json.null) ∧
    (getField (Json.obj [("jsonrpc", Json.str "2.0"), ("id", Json.num 0)]) "id" =
        some (Json.num 0) →
      idOrNull (Json.obj [("jsonrpc", Json.str "2.0"), ("id", Json.num 0)]) = Json.null) ∧
    (getField (Json.obj [("jsonrpc", Json.str "2.0"), ("id", Json.num 0)]) "id" =
        some (Json.str "") →
      idOrNull (Json.obj [("jsonrpc", Json.str "2.0"), ("id", Json.num 0)]) = Json.null) :=
  C3_invalid_request_id_amended _ _ rfl rfl

/-! ## C2: session-id lifecycle -/

theorem objSet_lookup_self (o : List (String × String)) (k v : String) :
    (objSet o k v).lookup k = some v := by
  induction o with
  | nil => simp [objSet]
  | cons p t ih =>
    obtain ⟨pk, pv⟩ := p
    by_cases h : pk = k
    · simp [objSet, h]
    · simp only [objSet, if_neg h]
      rw [List.lookup_cons]
      have hbeq : (k == pk) = false := beq_false_of_ne (fun hh => h hh.symm)
      simp [hbeq, ih]

theorem buildRequestHeaders_session (cfg : Config) (s : Session) (sid : String)
    (h : s.sessionId = some sid) (hne : sid ≠ "") :
    (buildRequestHeaders cfg s).lookup "Mcp-Session-Id" = some sid := by
  simp only [buildRequestHeaders, h, if_pos hne]
  exact objSet_lookup_self _ _ _

theorem updateSession_keeps (s : Session) (sh : Option String) (sid : String)
    (h : s.sessionId = some sid) (hne : sid ≠ "") :
    ∃ sid2, sid2 ≠ "" ∧ (updateSession s sh).sessionId = some sid2 := by
  cases sh with
  | none => exact ⟨sid, hne, h⟩
  | some v =>
    by_cases hv : v ≠ "" ∧ s.sessionId ≠ some v
    · exact ⟨v, hv.1, by simp [updateSession, hv]⟩
    · exact ⟨sid, hne, by simp only [updateSession, if_neg hv]; exact h⟩

theorem sendRequest_sessionId_change (cfg : Config) (s : Session) (m : Json)
    (o : FetchOutcome) :
    (sendRequest cfg s m o).1.sessionId = s.sessionId ∨
    ∃ v, responseSessionHeader o = some v ∧ v ≠ "" ∧ s.sessionId ≠ some v ∧
      (sendRequest cfg s m o).1.sessionId = some v := by
  cases o with
  | reject e => left; rfl
  | response status statusText sh ct body =>
    have hfst : (sendRequest cfg s m (.response status statusText sh ct body)).1 =
        updateSession { s with requestCount := s.requestCount + 1 } sh := rfl
    rw [hfst]
    cases sh with
    | none => left; rfl
    | some v =>
      by_cases hv : v ≠ "" ∧ s.sessionId ≠ some v
      · right
        exact ⟨v, rfl, hv.1, hv.2, by simp [updateSession, hv]⟩
      · left
        simp only [updateSession, if_neg hv]

theorem sendRequest_keeps (cfg : Config) (s : Session) (m : Json) (o : FetchOutcome)
    (sid : String) (h : s.sessionId = some sid) (hne : sid ≠ "") :
    ∃ sid2, sid2 ≠ "" ∧ (sendRequest cfg s m o).1.sessionId = some sid2 := by
  cases o with
  | reject e => exact ⟨sid, hne, h⟩
  | response status statusText sh ct body =>
    have hfst : (sendRequest cfg s m (.response status statusText sh ct body)).1 =
        updateSession { s with requestCount := s.requestCount + 1 } sh := rfl
    rw [hfst]
    exact updateSession_keeps _ _ sid h hne

theorem runSession_keeps (cfg : Config) (steps : List (Json × FetchOutcome)) (s : Session)
    (sid : String) (h : s.sessionId = some sid) (hne : sid ≠ "") :
    ∃ sid2, sid2 ≠ "" ∧ (runSession cfg s steps).sessionId = some sid2 := by
  induction steps generalizing s sid with
  | nil => exact ⟨sid, hne, h⟩
  | cons p t ih =>
    obtain ⟨sid1, hne1, h1⟩ := sendRequest_keeps cfg s p.1 p.2 sid h hne
    have : runSession cfg s (p :: t) = runSession cfg (sendRequest cfg s p.1 p.2).1 t := rfl
    rw [this]
    exact ih _ _ h1 hne1

/-- C2: once a session id has been observed (stored as a non-empty string),
every outbound request built by `buildRequestHeaders` carries exactly the
stored value in `Mcp-Session-Id`, and the cleanup DELETE of `stop()`
carries exactly that value; one dispatch changes the stored value only
when the response supplies a different non-empty `Mcp-Session-Id` header
value, which then becomes the stored value; and over any sequence of
dispatches the stored id stays a non-empty string whose value is echoed by
`buildRequestHeaders` and by the cleanup DELETE. -/
theorem C2_session_id_echoed (cfg : Config) (s : Session) (sid : String)
    (hsid : s.sessionId = some sid) (hne : sid ≠ "") :
    (buildRequestHeaders cfg s).lookup "Mcp-Session-Id" = some sid ∧
    stopCleanupHeaders s = some [("Mcp-Session-Id", sid)] ∧
    (∀ m o, (sendRequest cfg s m o).1.sessionId = s.sessionId ∨
      ∃ v, responseSessionHeader o = some v ∧ v ≠ "" ∧ s.sessionId ≠ some v ∧
        (sendRequest cfg s m o).1.sessionId = some v) ∧
    (∀ steps, ∃ sid2, sid2 ≠ "" ∧
      (runSession cfg s steps).sessionId = some sid2 ∧
      (buildRequestHeaders cfg (runSession cfg s steps)).lookup "Mcp-Session-Id" = some sid2 ∧
      stopCleanupHeaders (runSession cfg s steps) = some [("Mcp-Session-Id", sid2)]) := by
  refine ⟨buildRequestHeaders_session cfg s sid hsid hne, ?_, ?_, ?_⟩
  · simp [stopCleanupHeaders, hsid, hne]
  · intro m o
    exact sendRequest_sessionId_change cfg s m o
  · intro steps
    obtain ⟨sid2, hne2, h2⟩ := runSession_keeps cfg steps s sid hsid hne
    exact ⟨sid2, hne2, h2, buildRequestHeaders_session cfg _ sid2 h2 hne2,
      by simp [stopCleanupHeaders, h2, hne2]⟩

/-- C2 witness: the invariant instantiated at a session that has observed
the id `"abc"`. -/
theorem C2_session_id_echoed_witness :
    (buildRequestHeaders ⟨[("X-A", "b")], 60000⟩ ⟨some "abc", 1⟩).lookup "Mcp-Session-Id" =
      some "abc" ∧
    stopCleanupHeaders ⟨some "abc", 1⟩ = some [("Mcp-Session-Id", "abc")] ∧
    (∀ m o, (sendRequest ⟨[("X-A", "b")], 60000⟩ ⟨some "abc", 1⟩ m o).1.sessionId =
        (⟨some "abc", 1⟩ : Session).sessionId ∨
      ∃ v, responseSessionHeader o = some v ∧ v ≠ "" ∧
        (⟨some "abc", 1⟩ : Session).sessionId ≠ some v ∧
        (sendRequest ⟨[("X-A", "b")], 60000⟩ ⟨some "abc", 1⟩ m o).1.sessionId = some v) ∧
    (∀ steps, ∃ sid2, sid2 ≠ "" ∧
      (runSession ⟨[("X-A", "b")], 60000⟩ ⟨some "abc", 1⟩ steps).sessionId = some sid2 ∧
      (buildRequestHeaders ⟨[("X-A", "b")], 60000⟩
        (runSession ⟨[("X-A", "b")], 60000⟩ ⟨some "abc", 1⟩ steps)).lookup "Mcp-Session-Id" =
          some sid2 ∧
      stopCleanupHeaders (runSession ⟨[("X-A", "b")], 60000⟩ ⟨some "abc", 1⟩ steps) =
        some [("Mcp-Session-Id", sid2)]) :=
  C2_session_id_echoed _ _ "abc" rfl (by decide)

/-! ## C5/C10: transport-error envelopes -/

theorem fromNetworkError_code (e : JSError) (id : Option Json) :
    envelopeCode (fromNetworkError e id) = some (Json.num (-32000)) := by
  simp only [fromNetworkError]
  exact envelopeCode_cer _ _ _ _

theorem fromNetworkError_id (e : JSError) (id : Option Json) :
    envelopeId (fromNetworkError e id) = id := by
  simp only [fromNetworkError]
  exact envelopeId_cer _ _ _ _

theorem fromNetworkError_errorCode (e : JSError) (id : Option Json) :
    dataErrorCode (fromNetworkError e id) =
      (if e.code = some "ENOTFOUND" ∨ e.causeCode = some "ENOTFOUND" then
        some (Json.str "ENOTFOUND")
      else if e.code = some "ECONNREFUSED" ∨ e.causeCode = some "ECONNREFUSED" then
        some (Json.str "ECONNREFUSED")
      else if e.code = some "ETIMEDOUT" ∨ e.causeCode = some "ETIMEDOUT" ∨
          e.name = some "TimeoutError" then
        some (Json.str "ETIMEDOUT")
      else if e.code = some "ECONNRESET" ∨ e.causeCode = some "ECONNRESET" then
        some (Json.str "ECONNRESET")
      else if e.code = some "CERT_HAS_EXPIRED" ∨ strContains e.message "certificate" then
        some (Json.str "CERT_ERROR")
      else none) := by
  simp only [fromNetworkError]
  split_ifs <;> (rw [dataErrorCode_cer]; simp +decide [List.lookup])

theorem fromNetworkError_originalError (e : JSError) (id : Option Json) :
    dataOriginalError (fromNetworkError e id) = some (Json.str e.message) := by
  simp only [fromNetworkError]
  split_ifs <;> (rw [dataOriginalError_cer]; simp +decide [List.lookup])

theorem fromNetworkError_message (e : JSError) (id : Option Json) :
    envelopeMessage (fromNetworkError e id) = some (Json.str
      (if e.code = some "ENOTFOUND" ∨ e.causeCode = some "ENOTFOUND" then
        "DNS resolution failed"
      else if e.code = some "ECONNREFUSED" ∨ e.causeCode = some "ECONNREFUSED" then
        "Connection refused"
      else if e.code = some "ETIMEDOUT" ∨ e.causeCode = some "ETIMEDOUT" ∨
          e.name = some "TimeoutError" then
        "Request timeout"
      else if e.code = some "ECONNRESET" ∨ e.causeCode = some "ECONNRESET" then
        "Connection reset"
      else if e.code = some "CERT_HAS_EXPIRED" ∨ strContains e.message "certificate" then
        "SSL/TLS certificate error"
      else "Network error")) := by
  simp only [fromNetworkError]
  split_ifs <;> (apply envelopeMessage_cer; simp)

/-- C5: a dispatch whose `fetch` rejects — including expiry of the proxy's
own timer, which surfaces as an `AbortError` and is mapped to a synthetic
`TimeoutError` — makes `sendRequest` return (not throw) an envelope with
code exactly -32000, keyed to the original request's id (`null` for a
batch), and `data.errorCode` identifies the sub-cause along the source's
classification chain (DNS, refused, timeout, reset, TLS). -/
theorem C5_network_error_envelope (cfg : Config) (s : Session) (m : Json) (e : JSError) :
    envelopeCode (sendRequest cfg s m (FetchOutcome.reject e)).2 = some (Json.num (-32000)) ∧
    envelopeId (sendRequest cfg s m (FetchOutcome.reject e)).2 = requestIdOf m ∧
    (isBatchRequest m = true → requestIdOf m = some Json.null) ∧
    (e.name = some "AbortError" →
      dataErrorCode (sendRequest cfg s m (FetchOutcome.reject e)).2 =
        some (Json.str "ETIMEDOUT")) ∧
    (e.name ≠ some "AbortError" →
      ((e.code = some "ENOTFOUND" ∨ e.causeCode = some "ENOTFOUND") →
        dataErrorCode (sendRequest cfg s m (FetchOutcome.reject e)).2 =
          some (Json.str "ENOTFOUND")) ∧
      (¬(e.code = some "ENOTFOUND" ∨ e.causeCode = some "ENOTFOUND") →
        (e.code = some "ECONNREFUSED" ∨ e.causeCode = some "ECONNREFUSED") →
        dataErrorCode (sendRequest cfg s m (FetchOutcome.reject e)).2 =
          some (Json.str "ECONNREFUSED")) ∧
      (¬(e.code = some "ENOTFOUND" ∨ e.causeCode = some "ENOTFOUND") →
        ¬(e.code = some "ECONNREFUSED" ∨ e.causeCode = some "ECONNREFUSED") →
        (e.code = some "ETIMEDOUT" ∨ e.causeCode = some "ETIMEDOUT" ∨
          e.name = some "TimeoutError") →
        dataErrorCode (sendRequest cfg s m (FetchOutcome.reject e)).2 =
          some (Json.str "ETIMEDOUT")) ∧
      (¬(e.code = some "ENOTFOUND" ∨ e.causeCode = some "ENOTFOUND") →
        ¬(e.code = some "ECONNREFUSED" ∨ e.causeCode = some "ECONNREFUSED") →
        ¬(e.code = some "ETIMEDOUT" ∨ e.causeCode = some "ETIMEDOUT" ∨
          e.name = some "TimeoutError") →
        (e.code = some "ECONNRESET" ∨ e.causeCode = some "ECONNRESET") →
        dataErrorCode (sendRequest cfg s m (FetchOutcome.reject e)).2 =
          some (Json.str "ECONNRESET")) ∧
      (¬(e.code = some "ENOTFOUND" ∨ e.causeCode = some "ENOTFOUND") →
        ¬(e.code = some "ECONNREFUSED" ∨ e.causeCode = some "ECONNREFUSED") →
        ¬(e.code = some "ETIMEDOUT" ∨ e.causeCode = some "ETIMEDOUT" ∨
          e.name = some "TimeoutError") →
        ¬(e.code = some "ECONNRESET" ∨ e.causeCode = some "ECONNRESET") →
        (e.code = some "CERT_HAS_EXPIRED" ∨ strContains e.message "certificate" = true) →
        dataErrorCode (sendRequest cfg s m (FetchOutcome.reject e)).2 =
          some (Json.str "CERT_ERROR"))) := by
  have hsnd : (sendRequest cfg s m (FetchOutcome.reject e)).2 =
      if e.name = some "AbortError" then
        fromNetworkError
          ⟨some "TimeoutError", s!"Request timeout after {cfg.timeout}ms", none, none⟩
          (requestIdOf m)
      else fromNetworkError e (requestIdOf m) := rfl
  refine ⟨?_, ?_, ?_, ?_, ?_⟩
  · rw [hsnd]
    split_ifs <;> exact fromNetworkError_code _ _
  · rw [hsnd]
    split_ifs <;> exact fromNetworkError_id _ _
  · intro hb
    simp [requestIdOf, hb]
  · intro hA
    rw [hsnd, if_pos hA, fromNetworkError_errorCode]
    simp
  · intro hA
    refine ⟨?_, ?_, ?_, ?_, ?_⟩ <;> intro h1 <;>
      first
        | (intro h2 h3 h4 h5
           rw [hsnd, if_neg hA, fromNetworkError_errorCode]
           simp [h1, h2, h3, h4, h5])
        | (intro h2 h3 h4
           rw [hsnd, if_neg hA, fromNetworkError_errorCode]
           simp [h1, h2, h3, h4])
        | (intro h2 h3
           rw [hsnd, if_neg hA, fromNetworkError_errorCode]
           simp [h1, h2, h3])
        | (intro h2
           rw [hsnd, if_neg hA, fromNetworkError_errorCode]
           simp [h1, h2])
        | (rw [hsnd, if_neg hA, fromNetworkError_errorCode]
           simp [h1])

/-- C5 witness: the theorem at a DNS-failure rejection of a request with
id 1. -/
theorem C5_network_error_envelope_witness :
    envelopeCode (sendRequest ⟨[], 100⟩ ⟨none, 0⟩ (Json.obj [("id", Json.num 1)])
      (FetchOutcome.reject ⟨none, "getaddrinfo ENOTFOUND example.invalid",
        some "ENOTFOUND", none⟩)).2 = some (Json.num (-32000)) ∧
    envelopeId (sendRequest ⟨[], 100⟩ ⟨none, 0⟩ (Json.obj [("id", Json.num 1)])
      (FetchOutcome.reject ⟨none, "getaddrinfo ENOTFOUND example.invalid",
        some "ENOTFOUND", none⟩)).2 =
      requestIdOf (Json.obj [("id", Json.num 1)]) ∧
    (isBatchRequest (Json.obj [("id", Json.num 1)]) = true →
      requestIdOf (Json.obj [("id", Json.num 1)]) = some Json.null) ∧
    ((⟨none, "getaddrinfo ENOTFOUND example.invalid", some "ENOTFOUND", none⟩ : JSError).name =
        some "AbortError" →
      dataErrorCode (sendRequest ⟨[], 100⟩ ⟨none, 0⟩ (Json.obj [("id", Json.num 1)])
        (FetchOutcome.reject ⟨none, "getaddrinfo ENOTFOUND example.invalid",
          some "ENOTFOUND", none⟩)).2 = some (Json.str "ETIMEDOUT")) ∧
    ((⟨none, "getaddrinfo ENOTFOUND example.invalid", some "ENOTFOUND", none⟩ : JSError).name ≠
        some "AbortError" →
      (((⟨none, "getaddrinfo ENOTFOUND example.invalid", some "ENOTFOUND", none⟩ : JSError).code =
          some "ENOTFOUND" ∨
        (⟨none, "getaddrinfo ENOTFOUND example.invalid", some "ENOTFOUND", none⟩ :
          JSError).causeCode = some "ENOTFOUND") →
        dataErrorCode (sendRequest ⟨[], 100⟩ ⟨none, 0⟩ (Json.obj [("id", Json.num 1)])
          (FetchOutcome.reject ⟨none, "getaddrinfo ENOTFOUND example.invalid",
            some "ENOTFOUND", none⟩)).2 = some (Json.str "ENOTFOUND")) ∧
      (¬((⟨none, "getaddrinfo ENOTFOUND example.invalid", some "ENOTFOUND", none⟩ : JSError).code =
          some "ENOTFOUND" ∨
        (⟨none, "getaddrinfo ENOTFOUND example.invalid", some "ENOTFOUND", none⟩ :
          JSError).causeCode = some "ENOTFOUND") →
        ((⟨none, "getaddrinfo ENOTFOUND example.invalid", some "ENOTFOUND", none⟩ : JSError).code =
          some "ECONNREFUSED" ∨
         (⟨none, "getaddrinfo ENOTFOUND example.invalid", some "ENOTFOUND", none⟩ :
          JSError).causeCode = some "ECONNREFUSED") →
        dataErrorCode (sendRequest ⟨[], 100⟩ ⟨none, 0⟩ (Json.obj [("id", Json.num 1)])
          (FetchOutcome.reject ⟨none, "getaddrinfo ENOTFOUND example.invalid",
            some "ENOTFOUND", none⟩)).2 = some (Json.str "ECONNREFUSED")) ∧
      (¬((⟨none, "getaddrinfo ENOTFOUND example.invalid", some "ENOTFOUND", none⟩ : JSError).code =
          some "ENOTFOUND" ∨
        (⟨none, "getaddrinfo ENOTFOUND example.invalid", some "ENOTFOUND", none⟩ :
          JSError).causeCode = some "ENOTFOUND") →
        ¬((⟨none, "getaddrinfo ENOTFOUND example.invalid", some "ENOTFOUND", none⟩ : JSError).code =
          some "ECONNREFUSED" ∨
         (⟨none, "getaddrinfo ENOTFOUND example.invalid", some "ENOTFOUND", none⟩ :
          JSError).causeCode = some "ECONNREFUSED") →
        ((⟨none, "getaddrinfo ENOTFOUND example.invalid", some "ENOTFOUND", none⟩ : JSError).code =
          some "ETIMEDOUT" ∨
         (⟨none, "getaddrinfo ENOTFOUND example.invalid", some "ENOTFOUND", none⟩ :
          JSError).causeCode = some "ETIMEDOUT" ∨
         (⟨none, "getaddrinfo ENOTFOUND example.invalid", some "ENOTFOUND", none⟩ : JSError).name =
          some "TimeoutError") →
        dataErrorCode (sendRequest ⟨[], 100⟩ ⟨none, 0⟩ (Json.obj [("id", Json.num 1)])
          (FetchOutcome.reject ⟨none, "getaddrinfo ENOTFOUND example.invalid",
            some "ENOTFOUND", none⟩)).2 = some (Json.str "ETIMEDOUT")) ∧
      (¬((⟨none, "getaddrinfo ENOTFOUND example.invalid", some "ENOTFOUND", none⟩ : JSError).code =
          some "ENOTFOUND" ∨
        (⟨none, "getaddrinfo ENOTFOUND example.invalid", some "ENOTFOUND", none⟩ :
          JSError).causeCode = some "ENOTFOUND") →
        ¬((⟨none, "getaddrinfo ENOTFOUND example.invalid", some "ENOTFOUND", none⟩ : JSError).code =
          some "ECONNREFUSED" ∨
         (⟨none, "getaddrinfo ENOTFOUND example.invalid", some "ENOTFOUND", none⟩ :
          JSError).causeCode = some "ECONNREFUSED") →
        ¬((⟨none, "getaddrinfo ENOTFOUND example.invalid", some "ENOTFOUND", none⟩ : JSError).code =
          some "ETIMEDOUT" ∨
         (⟨none, "getaddrinfo ENOTFOUND example.invalid", some "ENOTFOUND", none⟩ :
          JSError).causeCode = some "ETIMEDOUT" ∨
         (⟨none, "getaddrinfo ENOTFOUND example.invalid", some "ENOTFOUND", none⟩ : JSError).name =
          some "TimeoutError") →
        ((⟨none, "getaddrinfo ENOTFOUND example.invalid", some "ENOTFOUND", none⟩ : JSError).code =
          some "ECONNRESET" ∨
         (⟨none, "getaddrinfo ENOTFOUND example.invalid", some "ENOTFOUND", none⟩ :
          JSError).causeCode = some "ECONNRESET") →
        dataErrorCode (sendRequest ⟨[], 100⟩ ⟨none, 0⟩ (Json.obj [("id", Json.num 1)])
          (FetchOutcome.reject ⟨none, "getaddrinfo ENOTFOUND example.invalid",
            some "ENOTFOUND", none⟩)).2 = some (Json.str "ECONNRESET")) ∧
      (¬((⟨none, "getaddrinfo ENOTFOUND example.invalid", some "ENOTFOUND", none⟩ : JSError).code =
          some "ENOTFOUND" ∨
        (⟨none, "getaddrinfo ENOTFOUND example.invalid", some "ENOTFOUND", none⟩ :
          JSError).causeCode = some "ENOTFOUND") →
        ¬((⟨none, "getaddrinfo ENOTFOUND example.invalid", some "ENOTFOUND", none⟩ : JSError).code =
          some "ECONNREFUSED" ∨
         (⟨none, "getaddrinfo ENOTFOUND example.invalid", some "ENOTFOUND", none⟩ :
          JSError).causeCode = some "ECONNREFUSED") →
        ¬((⟨none, "getaddrinfo ENOTFOUND example.invalid", some "ENOTFOUND", none⟩ : JSError).code =
          some "ETIMEDOUT" ∨
         (⟨none, "getaddrinfo ENOTFOUND example.invalid", some "ENOTFOUND", none⟩ :
          JSError).causeCode = some "ETIMEDOUT" ∨
         (⟨none, "getaddrinfo ENOTFOUND example.invalid", some "ENOTFOUND", none⟩ : JSError).name =
          some "TimeoutError") →
        ¬((⟨none, "getaddrinfo ENOTFOUND example.invalid", some "ENOTFOUND", none⟩ : JSError).code =
          some "ECONNRESET" ∨
         (⟨none, "getaddrinfo ENOTFOUND example.invalid", some "ENOTFOUND", none⟩ :
          JSError).causeCode = some "ECONNRESET") →
        ((⟨none, "getaddrinfo ENOTFOUND example.invalid", some "ENOTFOUND", none⟩ : JSError).code =
          some "CERT_HAS_EXPIRED" ∨
         strContains (⟨none, "getaddrinfo ENOTFOUND example.invalid", some "ENOTFOUND", none⟩ :
          JSError).message "certificate" = true) →
        dataErrorCode (sendRequest ⟨[], 100⟩ ⟨none, 0⟩ (Json.obj [("id", Json.num 1)])
          (FetchOutcome.reject ⟨none, "getaddrinfo ENOTFOUND example.invalid",
            some "ENOTFOUND", none⟩)).2 = some (Json.str "CERT_ERROR"))) :=
  C5_network_error_envelope ⟨[], 100⟩ ⟨none, 0⟩ (Json.obj [("id", Json.num 1)])
    ⟨none, "getaddrinfo ENOTFOUND example.invalid", some "ENOTFOUND", none⟩

/-- C10: a response with a success HTTP status and a non-event-stream
content type whose body is not valid JSON makes `sendRequest` return (not
throw) a -32000 transport-error envelope keyed to the original request's
id, carrying the underlying `JSON.parse` failure as `data.originalError`;
the message is the generic "Network error" (unless the parse failure text
itself happens to contain "certificate", which the classification chain
would then match). -/
theorem C10_invalid_json_body (cfg : Config) (s : Session) (m : Json) (status : Int)
    (statusText : String) (sh : Option String) (ct : Option String) (raw perr : String)
    (hok : httpOk status = true)
    (hct : strContains (ct.getD "") "text/event-stream" = false) :
    envelopeCode (sendRequest cfg s m
      (FetchOutcome.response status statusText sh ct (BodyResult.textOf raw perr))).2 =
        some (Json.num (-32000)) ∧
    envelopeId (sendRequest cfg s m
      (FetchOutcome.response status statusText sh ct (BodyResult.textOf raw perr))).2 =
        requestIdOf m ∧
    dataOriginalError (sendRequest cfg s m
      (FetchOutcome.response status statusText sh ct (BodyResult.textOf raw perr))).2 =
        some (Json.str perr) ∧
    (strContains perr "certificate" = false →
      envelopeMessage (sendRequest cfg s m
        (FetchOutcome.response status statusText sh ct (BodyResult.textOf raw perr))).2 =
          some (Json.str "Network error")) := by
  have hsnd : (sendRequest cfg s m
      (FetchOutcome.response status statusText sh ct (BodyResult.textOf raw perr))).2 =
      fromNetworkError ⟨some "SyntaxError", perr, none, none⟩ (requestIdOf m) := by
    simp [sendRequest, hok, hct]
  refine ⟨?_, ?_, ?_, ?_⟩
  · rw [hsnd]; exact fromNetworkError_code _ _
  · rw [hsnd]; exact fromNetworkError_id _ _
  · rw [hsnd]; exact fromNetworkError_originalError _ _
  · intro hcert
    rw [hsnd, fromNetworkError_message]
    simp [hcert]

/-- C10 witness: a 200 response with `Content-Type: text/html` and a body
that is not JSON, for a request with id 1. -/
theorem C10_invalid_json_body_witness :
    envelopeCode (sendRequest ⟨[], 100⟩ ⟨none, 0⟩ (Json.obj [("id", Json.num 1)])
      (FetchOutcome.response 200 "OK" none (some "text/html")
        (BodyResult.textOf "<html></html>" "Unexpected token <"))).2 =
          some (Json.num (-32000)) ∧
    envelopeId (sendRequest ⟨[], 100⟩ ⟨none, 0⟩ (Json.obj [("id", Json.num 1)])
      (FetchOutcome.response 200 "OK" none (some "text/html")
        (BodyResult.textOf "<html></html>" "Unexpected token <"))).2 =
          requestIdOf (Json.obj [("id", Json.num 1)]) ∧
    dataOriginalError (sendRequest ⟨[], 100⟩ ⟨none, 0⟩ (Json.obj [("id", Json.num 1)])
      (FetchOutcome.response 200 "OK" none (some "text/html")
        (BodyResult.textOf "<html></html>" "Unexpected token <"))).2 =
          some (Json.str "Unexpected token <") ∧
    (strContains "Unexpected token <" "certificate" = false →
      envelopeMessage (sendRequest ⟨[], 100⟩ ⟨none, 0⟩ (Json.obj [("id", Json.num 1)])
        (FetchOutcome.response 200 "OK" none (some "text/html")
          (BodyResult.textOf "<html></html>" "Unexpected token <"))).2 =
            some (Json.str "Network error")) :=
  C10_invalid_json_body ⟨[], 100⟩ ⟨none, 0⟩ (Json.obj [("id", Json.num 1)]) 200 "OK" none
    (some "text/html") "<html></html>" "Unexpected token <" (by decide) (by decide)

/-! ## C7/C8/C9: header parsing, expansion and masking -/

theorem isTokenChar_not_ws (c : Char) (h : isTokenChar c = true) : c.isWhitespace = false := by
  by_contra hw
  simp only [Bool.not_eq_false] at hw
  have hcases : ((c = ' ' ∨ c = '\t') ∨ c = '\r') ∨ c = '\n' := by
    simpa [Char.isWhitespace] using hw
  rcases hcases with ((h1 | h1) | h1) | h1 <;> (subst h1; exact absurd h (by decide))

theorem isVarChar_not_ws (c : Char) (h : isVarChar c = true) : c.isWhitespace = false := by
  by_contra hw
  simp only [Bool.not_eq_false] at hw
  have hcases : ((c = ' ' ∨ c = '\t') ∨ c = '\r') ∨ c = '\n' := by
    simpa [Char.isWhitespace] using hw
  rcases hcases with ((h1 | h1) | h1) | h1 <;> (subst h1; exact absurd h (by decide))

theorem trim_parts (v : List Char) (h : trimChars v = v) :
    v.dropWhile Char.isWhitespace = v ∧
    v.reverse.dropWhile Char.isWhitespace = v.reverse := by
  have h1 : List.Sublist (v.dropWhile Char.isWhitespace) v := List.dropWhile_sublist _
  have h2 : List.Sublist
      ((v.dropWhile Char.isWhitespace).reverse.dropWhile Char.isWhitespace)
      (v.dropWhile Char.isWhitespace).reverse := List.dropWhile_sublist _
  have hlen : (((v.dropWhile Char.isWhitespace).reverse.dropWhile
      Char.isWhitespace).reverse).length = v.length := congrArg List.length h
  simp only [List.length_reverse] at hlen
  have hle1 : (v.dropWhile Char.isWhitespace).length ≤ v.length := h1.length_le
  have hle2 : ((v.dropWhile Char.isWhitespace).reverse.dropWhile Char.isWhitespace).length ≤
      (v.dropWhile Char.isWhitespace).reverse.length := h2.length_le
  simp only [List.length_reverse] at hle2
  have hdl : (v.dropWhile Char.isWhitespace).length = v.length := by omega
  have hdv : v.dropWhile Char.isWhitespace = v := h1.eq_of_length hdl
  refine ⟨hdv, ?_⟩
  rw [hdv] at h2 hlen
  exact h2.eq_of_length (by simpa using hlen)

theorem dropWhile_cons_of_neg (p : Char → Bool) (c : Char) (t : List Char) (h : p c = false) :
    List.dropWhile p (c :: t) = c :: t := by
  rw [List.dropWhile_cons, if_neg (by simp [h])]

theorem trimChars_all_not_ws (l : List Char) (h : ∀ c ∈ l, c.isWhitespace = false) :
    trimChars l = l := by
  cases l with
  | nil => rfl
  | cons c t =>
    have h1 : (c :: t).dropWhile Char.isWhitespace = c :: t :=
      dropWhile_cons_of_neg _ _ _ (h c (List.mem_cons_self c _))
    unfold trimChars
    rw [h1]
    cases hr : (c :: t).reverse with
    | nil => exact absurd hr (by simp)
    | cons rc rt =>
      have hrc : rc ∈ c :: t := by
        rw [← List.mem_reverse, hr]
        exact List.mem_cons_self rc _
      rw [dropWhile_cons_of_neg _ _ _ (h rc hrc), ← hr, List.reverse_reverse]

theorem splitAtChar_of_absent (ch : Char) (n r : List Char) (h : ∀ c ∈ n, c ≠ ch) :
    splitAtChar ch (n ++ ch :: r) = some (n, r) := by
  induction n with
  | nil => simp [splitAtChar]
  | cons c t ih =>
    have hc : c ≠ ch := h c (List.mem_cons_self c _)
    simp only [List.cons_append, splitAtChar, if_neg hc, List.append_eq,
      ih (fun x hx => h x (List.mem_cons_of_mem _ hx)), Option.map_some]
    rfl

theorem stringMk_data (s : String) : String.mk s.data = s := rfl

theorem dropWhile_id_head (p : Char → Bool) (c : Char) (t : List Char)
    (h : List.dropWhile p (c :: t) = c :: t) : p c = false := by
  by_contra hp
  simp only [Bool.not_eq_false] at hp
  rw [List.dropWhile_cons, if_pos (by simp [hp])] at h
  have hlen := congrArg List.length h
  have hle : (List.dropWhile p t).length ≤ t.length := (List.dropWhile_sublist _).length_le
  simp at hlen
  omega

theorem trim_header_cons (n v : List Char) (hn : n ≠ []) (hnt : ∀ c ∈ n, isTokenChar c = true)
    (hv : trimChars v = v) (hvne : v ≠ []) :
    trimChars (n ++ ':' :: ' ' :: v) = n ++ ':' :: ' ' :: v := by
  obtain ⟨nc, nt, rfl⟩ : ∃ nc nt, n = nc :: nt := by
    cases n with
    | nil => exact absurd rfl hn
    | cons a b => exact ⟨a, b, rfl⟩
  obtain ⟨hv1, hv2⟩ := trim_parts v hv
  unfold trimChars
  rw [List.cons_append, dropWhile_cons_of_neg _ _ _
    (isTokenChar_not_ws nc (hnt nc (List.mem_cons_self nc _)))]
  cases hvr : v.reverse with
  | nil => exact absurd (by simpa using hvr) hvne
  | cons rc rt =>
    have hrc : Char.isWhitespace rc = false := by
      rw [hvr] at hv2
      exact dropWhile_id_head _ _ _ hv2
    have hrev : (nc :: nt ++ ':' :: ' ' :: v).reverse =
        rc :: (rt ++ ' ' :: ':' :: (nc :: nt).reverse) := by
      rw [List.reverse_append]
      rw [show (':' :: ' ' :: v).reverse = v.reverse ++ [' ', ':'] from by simp]
      rw [hvr]
      simp
    rw [← List.cons_append, hrev, dropWhile_cons_of_neg _ _ _ hrc, ← hrev,
      List.reverse_reverse]

theorem trim_header_nil (n : List Char) (hn : n ≠ []) (hnt : ∀ c ∈ n, isTokenChar c = true) :
    trimChars (n ++ [':', ' ']) = n ++ [':'] := by
  obtain ⟨nc, nt, rfl⟩ : ∃ nc nt, n = nc :: nt := by
    cases n with
    | nil => exact absurd rfl hn
    | cons a b => exact ⟨a, b, rfl⟩
  unfold trimChars
  rw [List.cons_append, dropWhile_cons_of_neg _ _ _
    (isTokenChar_not_ws nc (hnt nc (List.mem_cons_self nc _)))]
  rw [← List.cons_append]
  rw [show (nc :: nt ++ [':', ' ']).reverse = ' ' :: ':' :: (nc :: nt).reverse from by simp]
  rw [List.dropWhile_cons, if_pos (by decide)]
  rw [dropWhile_cons_of_neg _ _ _ (by decide)]
  simp

theorem mk_data_eq (l : List Char) : (String.mk l).data = l := rfl

theorem trim_cons_space (v : List Char) : trimChars (' ' :: v) = trimChars v := by
  unfold trimChars
  rw [List.dropWhile_cons, if_pos (by decide)]

theorem tokenChar_ne_colon (c : Char) (h : isTokenChar c = true) : c ≠ ':' := by
  intro hc
  subst hc
  exact absurd h (by decide)


theorem expandChars_no_ref (env : List (String × String)) :
    ∀ l, hasEnvRef l = false → expandChars env l = l := by
  intro l
  induction l using expandChars.induct env with
  | case1 =>
    intro _
    simp [expandChars]
  | case2 c rest2 hv =>
    intro h
    rw [show hasEnvRef ('$' :: '{' :: c :: rest2) =
      (isVarStart c || hasEnvRef ('{' :: c :: rest2)) from rfl] at h
    simp [hv] at h
  | case3 c rest2 hv ih =>
    intro h
    rw [show hasEnvRef ('$' :: '{' :: c :: rest2) =
      (isVarStart c || hasEnvRef ('{' :: c :: rest2)) from rfl] at h
    simp only [Bool.or_eq_false_iff] at h
    simp [expandChars, hv, ih h.2]
  | case4 c rest2 hne hv =>
    intro h
    by_cases hc : c = '{'
    · rw [hc] at hv
      exact absurd hv (by decide)
    · have : hasEnvRef ('$' :: c :: rest2) = true := by
        simp [hasEnvRef, hc, hv]
      rw [this] at h
      exact absurd h (by decide)
  | case5 c rest2 hne hv ih =>
    intro h
    by_cases hc : c = '{'
    · subst hc
      cases rest2 with
      | nil => simp +decide [expandChars, hasEnvRef]
      | cons a b => exact (hne a b rfl rfl).elim
    · have h2 : hasEnvRef (c :: rest2) = false := by
        have hh : hasEnvRef ('$' :: c :: rest2) = (isVarStart c || hasEnvRef (c :: rest2)) := by
          simp [hasEnvRef, hc]
        rw [hh] at h
        simp only [Bool.or_eq_false_iff] at h
        exact h.2
      simp [expandChars, hc, hv, ih h2]
  | case6 =>
    intro _
    simp [expandChars]
  | case7 c rest hne ih =>
    intro h
    have hc : c ≠ '$' := fun hh => hne hh
    have h2 : hasEnvRef rest = false := by
      have hh : hasEnvRef (c :: rest) = hasEnvRef rest := by simp [hasEnvRef, hc]
      rw [hh] at h
      exact h
    simp [expandChars, hc, ih h2]

theorem string_append_data (s t : String) : (s ++ t).data = s.data ++ t.data := by
  cases s
  cases t
  rfl

/-- C7: for every header string of the form `"N: V"` where `N` is a valid
HTTP token and `V` — given as written, i.e. already trimmed, containing no
CR/LF and no environment-variable references — `parseHeader` succeeds and
the parsed value equals `V` exactly, for every environment; expansion is
the identity when there is nothing to expand. -/
theorem C7_expansion_identity (N V : String) (env : List (String × String))
    (hname : isValidHeaderName N = true)
    (htrim : trimChars V.data = V.data)
    (hvalue : isValidHeaderValue V = true)
    (href : hasEnvRef V.data = false) :
    expandEnvVars V env = V ∧
    parseHeader (N ++ ": " ++ V) env = ParseResult.ok ⟨N, V, V⟩ := by
  have hexpl : expandChars env V.data = V.data := expandChars_no_ref env V.data href
  have hexp : expandEnvVars V env = V := by
    show String.mk (expandChars env V.data) = V
    rw [hexpl, stringMk_data]
  refine ⟨hexp, ?_⟩
  have hname2 := hname
  simp only [isValidHeaderName, Bool.and_eq_true, List.all_eq_true, decide_eq_true_eq,
    ne_eq] at hname2
  obtain ⟨hnstr, hntok⟩ := hname2
  have hnne : N.data ≠ [] := by
    intro hnil
    apply hnstr
    cases N with
    | mk d =>
      simp only [mk_data_eq] at hnil
      subst hnil
      rfl
  have hdata : (N ++ ": " ++ V).data = N.data ++ ':' :: ' ' :: V.data := by
    rw [string_append_data, string_append_data]
    rw [show (": " : String).data = [':', ' '] from rfl]
    simp
  have hne0 : ¬(N ++ ": " ++ V = "") := by
    intro he
    have hd := congrArg String.data he
    rw [hdata] at hd
    simp at hd
  have hsplit : splitAtChar ':' (N.data ++ ':' :: ' ' :: V.data) =
      some (N.data, ' ' :: V.data) :=
    splitAtChar_of_absent ':' N.data (' ' :: V.data)
      (fun c hc => tokenChar_ne_colon c (hntok c hc))
  have htrname : trimChars N.data = N.data :=
    trimChars_all_not_ws _ (fun c hc => isTokenChar_not_ws c (hntok c hc))
  by_cases hvnil : V.data = []
  · have hV : V = "" := by
      cases V with
      | mk d =>
        simp only [mk_data_eq] at hvnil
        subst hvnil
        rfl
    subst hV
    simp only [mk_data_eq] at hdata hsplit htrim hexpl ⊢
    have htr : trimChars (N.data ++ ':' :: ' ' :: []) = N.data ++ [':'] := by
      simpa using trim_header_nil N.data hnne hntok
    have hsplit2 : splitAtChar ':' (N.data ++ [':']) = some (N.data, []) :=
      splitAtChar_of_absent ':' N.data []
        (fun c hc => tokenChar_ne_colon c (hntok c hc))
    simp only [parseHeader, hdata, if_neg hne0, mk_data_eq, htr, hsplit2, htrname,
      stringMk_data, hname]
    simp [trimChars, expandChars, isValidHeaderValue]
  · have htr : trimChars (N.data ++ ':' :: ' ' :: V.data) = N.data ++ ':' :: ' ' :: V.data :=
      trim_header_cons _ _ hnne hntok htrim hvnil
    have htrval : trimChars (' ' :: V.data) = V.data := by
      rw [trim_cons_space]
      exact htrim
    have hlen : ¬((N.data ++ ':' :: ' ' :: V.data).length = 0) := by simp
    simp only [parseHeader, hdata, if_neg hne0, mk_data_eq, htr, hsplit, htrname, htrval,
      stringMk_data, hname, hexpl, hvalue]
    simp [hlen]

theorem varStart_varChar (c : Char) (h : isVarStart c = true) : isVarChar c = true := by
  simp only [isVarStart, Bool.or_eq_true] at h
  simp only [isVarChar, Bool.or_eq_true]
  rcases h with h | h
  · exact Or.inl (Or.inl h)
  · exact Or.inr h

theorem hasEnvRef_dollar (c : Char) (r : List Char) (hv : isVarStart c = true) :
    hasEnvRef ('$' :: c :: r) = true := by
  by_cases hc : c = '{'
  · rw [hc] at hv
    exact absurd hv (by decide)
  · simp [hasEnvRef, hc, hv]

theorem expandChars_missing_var (env : List (String × String)) (kc : Char) (kt : List Char)
    (hks : isVarStart kc = true) (hkt : ∀ c ∈ kt, isVarChar c = true)
    (henv : env.lookup (String.mk (kc :: kt)) = none) :
    expandChars env ('$' :: kc :: kt) = [] := by
  by_cases hc : kc = '{'
  · rw [hc] at hks
    exact absurd hks (by decide)
  · have htw : kt.takeWhile isVarChar = kt := List.takeWhile_eq_self_iff.mpr hkt
    have hdw : kt.dropWhile isVarChar = [] := List.dropWhile_eq_nil_iff.mpr hkt
    simp [expandChars, hc, hks, htw, hdw, henv]

/-- C8: for every valid header name `N` and variable name `K` absent from
the environment, the header string `"N: $K"` expands the reference to the
empty string, and `parseHeaders` accepts the header with an empty value —
no error — while producing exactly one warning for it. -/
theorem C8_missing_var_empty_warning (N K : String) (env : List (String × String))
    (hname : isValidHeaderName N = true)
    (kc : Char) (kt : List Char) (hkd : K.data = kc :: kt)
    (hks : isVarStart kc = true) (hkt : ∀ c ∈ kt, isVarChar c = true)
    (henv : env.lookup K = none) :
    expandEnvVars ("$" ++ K) env = "" ∧
    (parseHeaders [N ++ ": $" ++ K] env).headers = [(N, "")] ∧
    (parseHeaders [N ++ ": $" ++ K] env).errors = [] ∧
    (parseHeaders [N ++ ": $" ++ K] env).warnings.length = 1 := by
  have hKmk : String.mk (kc :: kt) = K := by
    rw [← hkd, stringMk_data]
  have hexpv : expandChars env ('$' :: kc :: kt) = [] := by
    apply expandChars_missing_var env kc kt hks hkt
    rw [hKmk]
    exact henv
  have hdollar : ("$" ++ K).data = '$' :: kc :: kt := by
    rw [string_append_data, hkd]
    rfl
  have hexp : expandEnvVars ("$" ++ K) env = "" := by
    show String.mk (expandChars env ("$" ++ K).data) = ""
    rw [hdollar, hexpv]
  refine ⟨hexp, ?_⟩
  -- facts about N
  have hname2 := hname
  simp only [isValidHeaderName, Bool.and_eq_true, List.all_eq_true, decide_eq_true_eq,
    ne_eq] at hname2
  obtain ⟨hnstr, hntok⟩ := hname2
  have hnne : N.data ≠ [] := by
    intro hnil
    apply hnstr
    cases N with
    | mk d =>
      simp only [mk_data_eq] at hnil
      subst hnil
      rfl
  -- the value character list
  have hvallist : ∀ c ∈ '$' :: kc :: kt, c.isWhitespace = false := by
    intro c hc
    rcases List.mem_cons.mp hc with rfl | hc2
    · decide
    · rcases List.mem_cons.mp hc2 with rfl | hc3
      · exact isVarChar_not_ws c (varStart_varChar c hks)
      · exact isVarChar_not_ws c (hkt c hc3)
  have htrimv : trimChars ('$' :: kc :: kt) = '$' :: kc :: kt :=
    trimChars_all_not_ws _ hvallist
  have hdata : (N ++ ": $" ++ K).data = N.data ++ ':' :: ' ' :: '$' :: kc :: kt := by
    rw [string_append_data, string_append_data, hkd]
    rw [show (": $" : String).data = [':', ' ', '$'] from rfl]
    simp
  have hne0 : ¬(N ++ ": $" ++ K = "") := by
    intro he
    have hd := congrArg String.data he
    rw [hdata] at hd
    simp at hd
  have hsplit : splitAtChar ':' (N.data ++ ':' :: ' ' :: '$' :: kc :: kt) =
      some (N.data, ' ' :: '$' :: kc :: kt) :=
    splitAtChar_of_absent ':' N.data (' ' :: '$' :: kc :: kt)
      (fun c hc => tokenChar_ne_colon c (hntok c hc))
  have htrname : trimChars N.data = N.data :=
    trimChars_all_not_ws _ (fun c hc => isTokenChar_not_ws c (hntok c hc))
  have htr : trimChars (N.data ++ ':' :: ' ' :: '$' :: kc :: kt) =
      N.data ++ ':' :: ' ' :: '$' :: kc :: kt :=
    trim_header_cons _ _ hnne hntok htrimv (by simp)
  have htrval : trimChars (' ' :: '$' :: kc :: kt) = '$' :: kc :: kt := by
    rw [trim_cons_space]
    exact htrimv
  have hph : parseHeader (N ++ ": $" ++ K) env =
      ParseResult.ok ⟨N, "", String.mk ('$' :: kc :: kt)⟩ := by
    simp only [parseHeader, hdata, if_neg hne0, mk_data_eq, htr, hsplit, htrname, htrval,
      stringMk_data, hname, hexpv]
    simp +decide
  have horig_ne : String.mk ('$' :: kc :: kt) ≠ "" := by
    intro he
    have hd := congrArg String.data he
    simp [mk_data_eq] at hd
  have href : hasEnvRef (String.mk ('$' :: kc :: kt)).data = true := by
    rw [mk_data_eq]
    exact hasEnvRef_dollar kc kt hks
  refine ⟨?_, ?_, ?_⟩ <;>
    simp [parseHeaders, hph, horig_ne, href, objSet]

theorem leadsWith_length : ∀ (a b : List Char), leadsWith a b = true → a.length ≤ b.length
  | [], _, _ => by simp
  | _ :: _, [], h => by simp [leadsWith] at h
  | x :: xs, y :: ys, h => by
    simp only [leadsWith, Bool.and_eq_true] at h
    have ih := leadsWith_length xs ys h.2
    simp only [List.length_cons]
    omega

theorem hasSeg_length : ∀ (a b : List Char), hasSeg a b = true → a.length ≤ b.length
  | a, [], h => by
    simp only [hasSeg] at h
    exact leadsWith_length a [] h
  | a, y :: ys, h => by
    simp only [hasSeg, Bool.or_eq_true] at h
    rcases h with h | h
    · exact leadsWith_length _ _ h
    · have ih := hasSeg_length a ys h
      simp only [List.length_cons]
      omega


/-- C9 (amended): for every sensitive header name (case-insensitively in
the closed set), the masking helper returns the fixed token `"***"` when
the value's length is at most 12 and otherwise the first four and last
four characters around `"***"`; the masked output never contains (hence
never equals) the full secret value, except in the degenerate case where
the secret is itself a substring of the fixed mask token (the empty string
or a run of at most three asterisks). -/
theorem C9_masking_amended (name value : String)
    (hsens : sensitiveHeaders.contains (lowerAscii name) = true) :
    (value.data.length ≤ 12 → maskSensitiveValue name value = "***") ∧
    (value.data.length > 12 → maskSensitiveValue name value =
      String.mk (value.data.take 4 ++ ['*', '*', '*'] ++
        value.data.drop (value.data.length - 4))) ∧
    (hasSeg value.data ['*', '*', '*'] = false →
      hasSeg value.data (maskSensitiveValue name value).data = false) := by
  have hmask : maskSensitiveValue name value = String.mk (maskChars value.data) := by
    unfold maskSensitiveValue
    rw [if_pos hsens]
  refine ⟨?_, ?_, ?_⟩
  · intro h
    rw [hmask]
    unfold maskChars
    rw [if_pos h]
  · intro h
    rw [hmask]
    unfold maskChars
    rw [if_neg (by omega)]
  · intro hss
    by_cases hlen : value.data.length ≤ 12
    · have hm : (maskSensitiveValue name value).data = ['*', '*', '*'] := by
        rw [hmask, mk_data_eq]
        unfold maskChars
        rw [if_pos hlen]
      rw [hm]
      exact hss
    · by_contra hcontra
      simp only [Bool.not_eq_false] at hcontra
      have hl := hasSeg_length _ _ hcontra
      have hm : (maskSensitiveValue name value).data =
          value.data.take 4 ++ ['*', '*', '*'] ++
            value.data.drop (value.data.length - 4) := by
        rw [hmask, mk_data_eq]
        unfold maskChars
        rw [if_neg hlen]
      rw [hm] at hl
      simp only [List.length_append, List.length_take, List.length_drop,
        List.length_cons, List.length_nil] at hl
      omega

/-- C7 witness: the theorem applied to `"Authorization: Bearer token"`. -/
theorem C7_expansion_identity_witness :
    expandEnvVars "Bearer token" [("TOKEN", "xyz")] = "Bearer token" ∧
    parseHeader ("Authorization" ++ ": " ++ "Bearer token") [("TOKEN", "xyz")] =
      ParseResult.ok ⟨"Authorization", "Bearer token", "Bearer token"⟩ :=
  C7_expansion_identity "Authorization" "Bearer token" [("TOKEN", "xyz")]
    (by decide) (by decide) (by decide) (by decide)

/-- C8 witness: the theorem applied to `"X-Auth: $MISSING"` with an empty
environment. -/
theorem C8_missing_var_empty_warning_witness :
    expandEnvVars ("$" ++ "MISSING") [] = "" ∧
    (parseHeaders ["X-Auth" ++ ": $" ++ "MISSING"] []).headers = [("X-Auth", "")] ∧
    (parseHeaders ["X-Auth" ++ ": $" ++ "MISSING"] []).errors = [] ∧
    (parseHeaders ["X-Auth" ++ ": $" ++ "MISSING"] []).warnings.length = 1 :=
  C8_missing_var_empty_warning "X-Auth" "MISSING" [] (by decide)
    'M' ['I', 'S', 'S', 'I', 'N', 'G'] (by decide) (by decide) (by decide) rfl

/-- C9 counterexample: the claim says the masked output never equals or
contains the full secret value, in every case.  For the sensitive header
`authorization` with the (degenerate) secret value `"***"`, whose length
is at most 12, the helper returns the fixed token `"***"`, which equals
the secret. -/
theorem C9_mask_equals_secret :
    sensitiveHeaders.contains (lowerAscii "authorization") = true ∧
    maskSensitiveValue "authorization" "***" = "***" :=
  ⟨by decide, by decide⟩

/-- C9 witness: the amended theorem applied to name `"authorization"` and
the 13-character value `"abcdefghijklm"`. -/
theorem C9_masking_amended_witness :
    (("abcdefghijklm" : String).data.length ≤ 12 →
      maskSensitiveValue "authorization" "abcdefghijklm" = "***") ∧
    (("abcdefghijklm" : String).data.length > 12 →
      maskSensitiveValue "authorization" "abcdefghijklm" =
        String.mk (("abcdefghijklm" : String).data.take 4 ++ ['*', '*', '*'] ++
          ("abcdefghijklm" : String).data.drop
            (("abcdefghijklm" : String).data.length - 4))) ∧
    (hasSeg ("abcdefghijklm" : String).data ['*', '*', '*'] = false →
      hasSeg ("abcdefghijklm" : String).data
        (maskSensitiveValue "authorization" "abcdefghijklm").data = false) :=
  C9_masking_amended "authorization" "abcdefghijklm" (by decide)
